import Mathlib

set_option maxHeartbeats 1000000

/-!
Verification of the Geno-Clarity pharmacogenomic analysis pipeline.

The development shallowly embeds the algorithmic parts of the repository:

* `src/app/api/analyze/route.ts` — confidence banding (`finalConfidence`),
  phenotype normalization (`normalizedPhenotype`), per-gene variant impact
  attribution (`getImpact`, `detectedVariants`, `allVariantsHaveImpact`) and
  the two fatal validation gates of the `POST` handler (`analyzeValidation`).
* `src/components/DoctorDashboard.tsx` — the one-compartment PK simulation
  (`DRUG_PK_PARAMS`, `getKeModifier`, `getTimeWindow`, `generatePKData`).

Numbers are modelled as rationals (`ℚ`); `Math.exp` is modelled as an
abstract function parameter `e : ℚ → ℚ`, so that every definition stays
computable while theorems can assume the bounds of the real exponential
where they matter.  JavaScript string operations (`includes`, `startsWith`,
`split`, `toLowerCase`) are modelled by executable character-list functions.
-/

/-! ### String primitives (models of the JavaScript string operations) -/

/-- Test `listPrefixEq pat l` is true when `pat` is a prefix of `l`. -/
def listPrefixEq : List Char → List Char → Bool
  | [], _ => true
  | _ :: _, [] => false
  | a :: as, b :: bs => a == b && listPrefixEq as bs

/-- Test `listContainsSub pat l` is true when `pat` occurs as a contiguous
sublist of `l`. -/
def listContainsSub (pat : List Char) : List Char → Bool
  | [] => pat.isEmpty
  | c :: rest => listPrefixEq pat (c :: rest) || listContainsSub pat rest

/-- Model of JavaScript `s.includes(pat)`. -/
def strIncludes (s pat : String) : Bool :=
  listContainsSub pat.data s.data

/-- Model of JavaScript `s.startsWith(pre)`. -/
def strStartsWith (s pre : String) : Bool :=
  listPrefixEq pre.data s.data

/-- Splits a character list at every occurrence of the character `c`
(model of JavaScript `split` with a one-character separator). -/
def splitOnChar (c : Char) : List Char → List (List Char)
  | [] => [[]]
  | a :: as =>
    let r := splitOnChar c as
    if a == c then [] :: r
    else
      match r with
      | [] => [[a]]
      | g :: gs => (a :: g) :: gs

/-- Model of JavaScript `s.split(c)` for a one-character separator. -/
def strSplitOnChar (s : String) (c : Char) : List String :=
  (splitOnChar c s.data).map (fun l => String.mk l)

/-- Model of JavaScript `s.toLowerCase()` (ASCII lowering, which is what the
repository's phenotype labels use). -/
def strToLower (s : String) : String :=
  String.mk (s.data.map Char.toLower)

/-! ### Confidence banding — `src/app/api/analyze/route.ts` lines 206–209

```js
let finalConfidence = profile.gciScore / 100;
if (finalConfidence >= 1.0) finalConfidence = 0.95;
if (finalConfidence > 0.85 && finalConfidence < 0.95) finalConfidence = 0.90;
```
The two `if`s are sequential reassignments of the same variable. -/

def finalConfidence (gciScore : ℚ) : ℚ :=
  let c0 : ℚ := gciScore / 100
  let c1 : ℚ := if c0 ≥ 1.0 then 0.95 else c0
  let c2 : ℚ := if 0.85 < c1 ∧ c1 < 0.95 then 0.90 else c1
  c2

/-! ### Phenotype normalization — `route.ts` lines 142–152

A chain of non-exclusive `if` statements reassigning `normalizedPhenotype`
(a later match overrides an earlier one), followed by the exact-string
`'Normal Function'` override. -/

def normalizedPhenotype (rawPhenotype : String) : String :=
  let n0 := "Unknown"
  let n1 := if strIncludes rawPhenotype "Poor Metabolizer" ||
              strIncludes rawPhenotype "Poor Function" then "PM" else n0
  let n2 := if strIncludes rawPhenotype "Intermediate Metabolizer" ||
              strIncludes rawPhenotype "Decreased Function" then "IM" else n1
  let n3 := if strIncludes rawPhenotype "Normal Metabolizer" ||
              strIncludes rawPhenotype "Normal Function" then "NM" else n2
  let n4 := if strIncludes rawPhenotype "Rapid Metabolizer" then "RM" else n3
  let n5 := if strIncludes rawPhenotype "Ultrarapid Metabolizer" ||
              strIncludes rawPhenotype "Ultra Rapid Metabolizer" then "URM" else n4
  if rawPhenotype == "Normal Function" then "Normal" else n5

/-! ### Variant attribution — `route.ts` lines 165–204 -/

/-- A parsed variant record as consumed by the route handler: the
reference-SNP id and the raw per-sample strings. -/
structure Variant where
  id : String
  sampleData : List String
deriving DecidableEq

/-- An entry of the `detected_variants` output list. -/
structure DetectedVariant where
  rsid : String
  genotype : String
  impact : String
deriving DecidableEq

/-- The per-gene curated rsID tables, exactly the string literals of the
`belongsToGene` check in `getImpact` (`route.ts` lines 167–174). -/
def curatedTable (gene : String) : List String :=
  match gene with
  | "CYP2C19" => ["rs4244285", "rs4986893"]
  | "CYP2C9" => ["rs1799853", "rs1057910"]
  | "CYP2D6" => ["rs3892097", "rs1065852", "rs16947", "rs1135840"]
  | "TPMT" => ["rs1142345", "rs1800460", "rs1800462"]
  | "DPYD" => ["rs3918290", "rs67376798"]
  | "SLCO1B1" => ["rs4149056", "rs2306283"]
  | _ => []

/-- The `belongsToGene` disjunction local to `getImpact` in the source. -/
def belongsToGene (rsid currentGene : String) : Bool :=
  (currentGene == "CYP2C19" && (["rs4244285", "rs4986893"] : List String).contains rsid) ||
  (currentGene == "CYP2C9" && (["rs1799853", "rs1057910"] : List String).contains rsid) ||
  (currentGene == "CYP2D6" && (["rs3892097", "rs1065852", "rs16947", "rs1135840"] : List String).contains rsid) ||
  (currentGene == "TPMT" && (["rs1142345", "rs1800460", "rs1800462"] : List String).contains rsid) ||
  (currentGene == "DPYD" && (["rs3918290", "rs67376798"] : List String).contains rsid) ||
  (currentGene == "SLCO1B1" && (["rs4149056", "rs2306283"] : List String).contains rsid)

/-- Function `getImpact` of `route.ts` lines 165–186. -/
def getImpact (rsid genotype currentGene : String) : String :=
  if !belongsToGene rsid currentGene then "Unknown"
  else if genotype == "0/0" then "Normal_function"
  else if genotype == "0/1" then "Reduced_function"
  else if genotype == "1/1" then
    if (["rs3892097", "rs3918290", "rs1065852"] : List String).contains rsid then "No_function"
    else "Loss_of_function"
  else "Unknown"

/-- Genotype extraction from the raw sample string (`route.ts` lines 192–193):
`rawSample = v.sampleData?.[0] || 'Unknown'` and the first colon-delimited
token.  JavaScript `||` also replaces an empty string. -/
def extractGenotype (sampleData : List String) : String :=
  let rawSample :=
    match sampleData.head? with
    | some s => if s == "" then "Unknown" else s
    | none => "Unknown"
  if strIncludes rawSample ":" then (strSplitOnChar rawSample ':').headD ""
  else rawSample

/-- The `detected_variants` pipeline of `route.ts` lines 188–201: keep
variants whose id starts with `rs`, annotate each with its impact for the
assessment's gene, and drop every entry whose impact is `Unknown`. -/
def detectedVariants (variants : List Variant) (gene : String) : List DetectedVariant :=
  ((variants.filter (fun v => v.id != "" && strStartsWith v.id "rs")).map
      (fun v =>
        let genotype := extractGenotype v.sampleData
        { rsid := v.id, genotype := genotype, impact := getImpact v.id genotype gene })).filter
    (fun dv => dv.impact != "Unknown")

/-- Flag `allVariantsHaveImpact` of `route.ts` line 204:
`detected_variants.length > 0 ? detected_variants.every(v => v.impact !== 'Unknown') : true`. -/
def allVariantsHaveImpact (dvs : List DetectedVariant) : Bool :=
  if dvs.length > 0 then dvs.all (fun v => v.impact != "Unknown") else true

/-! ### VCF validation gates — `route.ts` lines 109–132

The uploaded document is modelled as its list of lines.  The required
marker contains no newline, so `vcfString.includes('##fileformat=VCF')`
holds exactly when some line contains the marker. -/

def vcfMarker : String := "##fileformat=VCF"

/-- The fatal error taxonomy of the two validation gates. -/
inductive AnalyzeError where
  | formatError
  | emptyResultError
deriving DecidableEq

/-- The literal user-facing messages of the two 422 responses in
`route.ts` lines 110–132. -/
def errorMessage : AnalyzeError → String
  | .formatError => "File does not appear to be a valid VCF. No \"##fileformat=VCF\" header was detected. Please upload a properly formatted Variant Call Format file."
  | .emptyResultError => "No variant records were detected in the uploaded file. The VCF header was found but the file contains no variant data rows. Please check your file and try again."

/-- A data row is a non-empty line that is not a `#`-prefixed metadata or
header line (spec §4.1: line-oriented text with `#`-marked metadata lines,
a header row, and data rows). -/
def isDataRow (line : String) : Bool :=
  line != "" && !strStartsWith line "#"

/-- Whether the required format marker appears before the first data row. -/
def markerBeforeFirstDataRow (doc : List String) : Bool :=
  (doc.takeWhile (fun l => !isDataRow l)).any (fun l => strIncludes l vcfMarker)

/-- Modelled from the spec: one parsed data row of `parseVCF` from the
missing `src/lib/vcfParser.ts`.  Per spec §4.1 a data row is split into
fixed tab-delimited columns yielding chromosome, position, id, reference
allele, alternate allele and a sample column (the standard ten-column VCF
layout, sample at index 9); rows lacking the minimum column count are
skipped, not fatal. -/
def parseDataRow (line : String) : Option Variant :=
  if !isDataRow line then none
  else
    let cols := strSplitOnChar line '\t'
    if cols.length < 10 then none
    else some { id := cols.getD 2 "", sampleData := [cols.getD 9 ""] }

/-- Modelled from the spec: `parse(document) -> sequence<Variant>` of the
missing `src/lib/vcfParser.ts`, which "fails with FormatError if the
document does not contain the required format header before the first data
row" (spec §4.1); otherwise it returns the parseable data rows in document
order. -/
def parseVCF (doc : List String) : Except AnalyzeError (List Variant) :=
  if markerBeforeFirstDataRow doc then .ok (doc.filterMap parseDataRow)
  else .error .formatError

/-- The validation phase of the `POST` handler (`route.ts` lines 109–132):
the containment gate on the raw document, then the parse, then the
empty-result gate.  A `FormatError` raised by the parse is a fatal
validation failure of the same class as the containment gate's. -/
def analyzeValidation (doc : List String) : Except AnalyzeError (List Variant) :=
  if !(doc.any (fun l => strIncludes l vcfMarker)) then .error .formatError
  else
    match parseVCF doc with
    | .error e => .error e
    | .ok variants =>
      if variants.length == 0 then .error .emptyResultError else .ok variants

/-! ### PK simulation — `src/components/DoctorDashboard.tsx` lines 202–313 -/

/-- Per-drug PK parameters (`DRUG_PK_PARAMS` entry shape). -/
structure PKParams where
  D : ℚ
  F : ℚ
  Vd : ℚ
  ka : ℚ
  ke_normal : ℚ
  toxicity : ℚ
  efficacy : ℚ
  unit : String
  halfLifeHr : ℚ
deriving DecidableEq

/-- Table `DRUG_PK_PARAMS` of `DoctorDashboard.tsx` lines 205–219. -/
def drugPKParams (drug : String) : Option PKParams :=
  match drug with
  | "CODEINE" => some { D := 30, F := 0.9, Vd := 200, ka := 1.5, ke_normal := 0.35, toxicity := 0.25, efficacy := 0.05, unit := "µg/L", halfLifeHr := 3 }
  | "WARFARIN" => some { D := 5, F := 0.9, Vd := 10, ka := 0.6, ke_normal := 0.04, toxicity := 3.0, efficacy := 0.8, unit := "mg/L", halfLifeHr := 36 }
  | "CLOPIDOGREL" => some { D := 75, F := 0.5, Vd := 400, ka := 1.2, ke_normal := 0.6, toxicity := 0.6, efficacy := 0.1, unit := "µg/L", halfLifeHr := 6 }
  | "SIMVASTATIN" => some { D := 40, F := 0.05, Vd := 580, ka := 1.0, ke_normal := 1.5, toxicity := 0.12, efficacy := 0.02, unit := "µg/L", halfLifeHr := 2 }
  | "AZATHIOPRINE" => some { D := 100, F := 0.8, Vd := 45, ka := 1.3, ke_normal := 0.35, toxicity := 8.0, efficacy := 2.0, unit := "mg/L", halfLifeHr := 5 }
  | "FLUOROURACIL" => some { D := 500, F := 1.0, Vd := 22, ka := 2.0, ke_normal := 0.9, toxicity := 300, efficacy := 80, unit := "µg/L", halfLifeHr := 0.5 }
  | "AMIODARONE" => some { D := 200, F := 0.5, Vd := 5000, ka := 0.3, ke_normal := 0.003, toxicity := 3.5, efficacy := 1.0, unit := "mg/L", halfLifeHr := 40 }
  | "CITALOPRAM" => some { D := 20, F := 0.8, Vd := 400, ka := 0.5, ke_normal := 0.04, toxicity := 0.5, efficacy := 0.05, unit := "mg/L", halfLifeHr := 35 }
  | "OMEPRAZOLE" => some { D := 20, F := 0.65, Vd := 35, ka := 0.8, ke_normal := 0.7, toxicity := 2.5, efficacy := 0.3, unit := "mg/L", halfLifeHr := 1.5 }
  | "PHENYTOIN" => some { D := 300, F := 0.9, Vd := 45, ka := 0.4, ke_normal := 0.03, toxicity := 25, efficacy := 10, unit := "mg/L", halfLifeHr := 22 }
  | _ => none

/-- The generic fallback parameter set used by `generatePKData` for drugs
absent from the table (`DoctorDashboard.tsx` lines 246–249). -/
def defaultPKParams : PKParams :=
  { D := 100, F := 0.8, Vd := 50, ka := 1.2, ke_normal := 0.25,
    toxicity := 8.0, efficacy := 2.0, unit := "mg/L", halfLifeHr := 6 }

/-- Set `PRODRUG_SET` of `DoctorDashboard.tsx` line 243. -/
def prodrugSet : List String := ["CODEINE", "CLOPIDOGREL"]

/-- Function `getKeModifier` of `DoctorDashboard.tsx` lines 223–240. -/
def getKeModifier (phenotype : String) (isProdrug : Bool) : ℚ :=
  let p := strToLower phenotype
  if isProdrug then
    if strIncludes p "poor" || strIncludes p "no function" then 0.15
    else if strIncludes p "intermediate" || strIncludes p "decreased" then 0.55
    else if strIncludes p "ultrarapid" || strIncludes p "ultra" then 2.2
    else if strIncludes p "rapid" then 1.5
    else 1.0
  else
    if strIncludes p "poor" || strIncludes p "no function" then 0.2
    else if strIncludes p "intermediate" || strIncludes p "decreased" then 0.5
    else if strIncludes p "ultrarapid" || strIncludes p "ultra" then 2.0
    else if strIncludes p "rapid" then 1.5
    else 1.0

/-- The half-life lookup `DRUG_PK_PARAMS[drug]?.halfLifeHr ?? 6` used by
`getTimeWindow`. -/
def halfLifeOf (drug : String) : ℚ :=
  ((drugPKParams drug).map PKParams.halfLifeHr).getD 6

/-- Function `getTimeWindow` of `DoctorDashboard.tsx` lines 305–313. -/
def getTimeWindow (drug : String) : ℚ :=
  let fiveHL := halfLifeOf drug * 5
  if fiveHL < 12 then 12
  else if fiveHL < 24 then 24
  else if fiveHL < 72 then 72
  else 120

/-- Model of `parseFloat(x.toFixed(2))` on a non-negative value: rounding
to two decimal places. -/
def round2 (x : ℚ) : ℚ := (round (x * 100) : ℤ) / 100

/-- Model of `parseFloat(x.toFixed(4))` on a non-negative value: rounding
to four decimal places. -/
def round4 (x : ℚ) : ℚ := (round (x * 10000) : ℤ) / 10000

/-- One output sample of the simulation. `metabolite` is `none` when the
source omits the field (`...(isProdrug ? { metabolite: ... } : {})`). -/
structure PKPoint where
  time : ℚ
  concentration : ℚ
  metabolite : Option ℚ
  toxicity : ℚ
  efficacy : ℚ
deriving DecidableEq

/-- The clamped one-compartment concentration of `generatePKData`
(`DoctorDashboard.tsx` lines 263–269), with `Math.exp` abstracted as `e`. -/
def concentrationAt (e : ℚ → ℚ) (P : PKParams) (ke : ℚ) (t : ℚ) : ℚ :=
  max 0
    (if |P.ka - ke| > 0.001 then
      (P.D * P.F / P.Vd) * (P.ka / (P.ka - ke)) * (e (-ke * t) - e (-P.ka * t))
    else 0)

/-- The clamped active-metabolite concentration for prodrugs
(`DoctorDashboard.tsx` lines 273–278): `kmet = ke * 0.4` and
`metabolite = concentration * (1 - e^(-kmet*t)) * keModifier * 0.3`. -/
def metaboliteAt (e : ℚ → ℚ) (P : PKParams) (ke keModifier : ℚ) (t : ℚ) : ℚ :=
  let kmet := ke * 0.4
  max 0 (concentrationAt e P ke t * (1 - e (-kmet * t)) * keModifier * 0.3)

/-- The record pushed for one loop iteration (`DoctorDashboard.tsx`
lines 280–286). -/
def pkSample (e : ℚ → ℚ) (P : PKParams) (ke keModifier : ℚ) (isPd : Bool) (t : ℚ) : PKPoint :=
  { time := round2 t
    concentration := round4 (concentrationAt e P ke t)
    metabolite := if isPd then some (round4 (metaboliteAt e P ke keModifier t)) else none
    toxicity := P.toxicity
    efficacy := P.efficacy }

/-- The sampling loop `for (let t = 0; t <= timeWindow; t += step)`.
The recursion is driven by a fuel bound: with `step = timeWindow / 48 > 0`
the source loop performs exactly 49 iterations (t = 0, step, …, 48·step),
so any fuel ≥ 50 reproduces it; `generatePKData` passes 64. -/
def pkLoop (e : ℚ → ℚ) (P : PKParams) (ke keModifier : ℚ) (isPd : Bool)
    (timeWindow step : ℚ) : ℕ → ℚ → List PKPoint
  | 0, _ => []
  | fuel + 1, t =>
    if t ≤ timeWindow then
      pkSample e P ke keModifier isPd t ::
        pkLoop e P ke keModifier isPd timeWindow step fuel (t + step)
    else []

/-- Function `generatePKData` of `DoctorDashboard.tsx` lines 245–290 (the source's
default `timeWindow` is 24; callers pass `getTimeWindow(drug)`). -/
def generatePKData (e : ℚ → ℚ) (drug phenotype : String) (timeWindow : ℚ) : List PKPoint :=
  let params := (drugPKParams drug).getD defaultPKParams
  let isPd := prodrugSet.contains drug
  let keModifier := getKeModifier phenotype isPd
  let ke := params.ke_normal * keModifier
  let step := timeWindow / 48
  pkLoop e params ke keModifier isPd timeWindow step 64 0

/-- The parameter set `generatePKData` resolves for a drug. -/
def pkParamsOf (drug : String) : PKParams :=
  (drugPKParams drug).getD defaultPKParams

/-- The phenotype-adjusted elimination/activation rate `ke` used by
`generatePKData` for a (drug, phenotype) pair. -/
def keOf (drug phenotype : String) : ℚ :=
  (pkParamsOf drug).ke_normal * getKeModifier phenotype (prodrugSet.contains drug)

/-! ## Helper lemmas -/

/-- An impact other than `Unknown` can only be assigned to an rsID of the
assessment gene's curated table. -/
theorem getImpact_ne_unknown_belongs {rsid genotype gene : String}
    (h : getImpact rsid genotype gene ≠ "Unknown") :
    belongsToGene rsid gene = true := by
  by_contra hb
  have hb' : belongsToGene rsid gene = false := by
    cases hfb : belongsToGene rsid gene
    · rfl
    · exact absurd hfb hb
  apply h
  simp [getImpact, hb']

/-- The `belongsToGene` disjunction is membership in the curated table. -/
theorem belongsToGene_mem_curatedTable {rsid gene : String}
    (h : belongsToGene rsid gene = true) : rsid ∈ curatedTable gene := by
  unfold belongsToGene at h
  simp only [Bool.or_eq_true, Bool.and_eq_true, beq_iff_eq] at h
  rcases h with ((((⟨hg, hm⟩ | ⟨hg, hm⟩) | ⟨hg, hm⟩) | ⟨hg, hm⟩) | ⟨hg, hm⟩) | ⟨hg, hm⟩ <;>
    subst hg <;> simpa [curatedTable] using List.mem_of_elem_eq_true hm

/-! ## Claim theorems -/

/-- C1: For every patient profile, the per-drug confidence fraction is
computed from the raw value `c = gciScore/100` as follows: if `c ≥ 1.0` the
output is exactly 0.95; if `0.85 < c < 0.95` the output is exactly 0.90;
otherwise the output equals `c`. -/
theorem finalConfidence_banding (gciScore : ℚ) :
    ((1 : ℚ) ≤ gciScore / 100 → finalConfidence gciScore = 0.95) ∧
    ((0.85 : ℚ) < gciScore / 100 ∧ gciScore / 100 < (0.95 : ℚ) →
      finalConfidence gciScore = 0.90) ∧
    (gciScore / 100 < (1 : ℚ) →
      ¬((0.85 : ℚ) < gciScore / 100 ∧ gciScore / 100 < (0.95 : ℚ)) →
      finalConfidence gciScore = gciScore / 100) := by
  refine ⟨fun h => ?_, fun h => ?_, fun h1 h2 => ?_⟩
  · simp only [finalConfidence]
    split_ifs with ha hb
    · norm_num at hb
    · norm_num
    · norm_num at ha; linarith
    · norm_num at ha; linarith
  · simp only [finalConfidence]
    split_ifs with ha hb
    · rfl
    · norm_num at ha; linarith [h.2]
    · rfl
  · simp only [finalConfidence]
    split_ifs with ha hb
    · norm_num at ha; linarith
    · norm_num at ha; linarith
    · rfl

/-- Witness for C1 at the three concrete inputs 120, 90 and 50. -/
theorem finalConfidence_banding_witness :
    finalConfidence 120 = 0.95 ∧ finalConfidence 90 = 0.90 ∧
      finalConfidence 50 = 50 / 100 :=
  ⟨(finalConfidence_banding 120).1 (by norm_num),
   (finalConfidence_banding 90).2.1 (by norm_num),
   (finalConfidence_banding 50).2.2 (by norm_num) (by norm_num)⟩

/-- C2 (code bug): at `gciScore = 97` the emitted confidence fraction is
0.97, strictly above the claimed (and the source comment's) 0.95 cap: the
first `if` only clamps values at or above 1.0 and the banding `if` only
rewrites values strictly below 0.95, so raw fractions in [0.95, 1) leak
through unchanged. -/
theorem finalConfidence_exceeds_cap_at_97 :
    finalConfidence 97 = 0.97 ∧ ¬(finalConfidence 97 ≤ 0.95) := by
  constructor <;> norm_num [finalConfidence]

/-- C3: every variant surfaced in the detected-variants list of a drug
assessment has a reference-SNP id in the curated rsID table of the
assessment's driving gene; a variant whose id is not in that table never
appears (non-bleed invariant). -/
theorem detectedVariants_subset_curatedTable
    (variants : List Variant) (gene : String) (dv : DetectedVariant)
    (h : dv ∈ detectedVariants variants gene) :
    dv.rsid ∈ curatedTable gene := by
  unfold detectedVariants at h
  have h' := List.mem_filter.mp h
  obtain ⟨v, hv, hmk⟩ := List.mem_map.mp h'.1
  have himp : dv.impact ≠ "Unknown" := by
    have := h'.2
    simpa using this
  have hfield : dv.impact = getImpact dv.rsid dv.genotype gene := by
    subst hmk
    rfl
  have hbelongs : belongsToGene dv.rsid gene = true := by
    apply getImpact_ne_unknown_belongs
    rw [← hfield]
    exact himp
  exact belongsToGene_mem_curatedTable hbelongs

/-- Witness for C3: a heterozygous CYP2C19 variant surfaces and its id is
in the CYP2C19 curated table. -/
theorem detectedVariants_subset_curatedTable_witness :
    (⟨"rs4244285", "0/1", "Reduced_function"⟩ : DetectedVariant) ∈
        detectedVariants [⟨"rs4244285", ["0/1:30"]⟩] "CYP2C19" ∧
      (⟨"rs4244285", "0/1", "Reduced_function"⟩ : DetectedVariant).rsid ∈
        curatedTable "CYP2C19" :=
  ⟨by decide,
   detectedVariants_subset_curatedTable [⟨"rs4244285", ["0/1:30"]⟩] "CYP2C19"
     ⟨"rs4244285", "0/1", "Reduced_function"⟩ (by decide)⟩

/-- C4 (code bug): a curated-gene variant with an unmapped genotype (here
`rs4244285` of CYP2C19 with genotype `2/2`) is indeed excluded from the
detected-variants list, but `variant_annotation_complete` cannot go false:
the `every`-check runs over the list that was already filtered to
non-`Unknown` impacts, so the flag is constantly `true`. -/
theorem annotationFlag_always_true :
    detectedVariants [⟨"rs4244285", ["2/2:10"]⟩] "CYP2C19" = [] ∧
    allVariantsHaveImpact (detectedVariants [⟨"rs4244285", ["2/2:10"]⟩] "CYP2C19") = true ∧
    ∀ (variants : List Variant) (gene : String),
      allVariantsHaveImpact (detectedVariants variants gene) = true := by
  refine ⟨by decide, by decide, fun variants gene => ?_⟩
  unfold allVariantsHaveImpact
  split_ifs with hlen
  · rw [List.all_eq_true]
    intro dv hdv
    unfold detectedVariants at hdv
    exact (List.mem_filter.mp hdv).2
  · rfl

/-- C5: an input document without the required format marker before the
first data row always fails with `FormatError`, regardless of well-formed
data rows in the document. -/
theorem missing_marker_yields_formatError (doc : List String)
    (h : markerBeforeFirstDataRow doc = false) :
    analyzeValidation doc = .error .formatError := by
  have hp : parseVCF doc = .error .formatError := by simp [parseVCF, h]
  cases hg : doc.any (fun l => strIncludes l vcfMarker) <;>
    simp [analyzeValidation, hg, hp]

/-- Witness for C5: a document whose marker appears only after a data row
(so the containment gate passes but the parse's header gate fails). -/
theorem missing_marker_yields_formatError_witness :
    markerBeforeFirstDataRow ["somedata", "##fileformat=VCFv4.2"] = false ∧
      analyzeValidation ["somedata", "##fileformat=VCFv4.2"] = .error .formatError :=
  ⟨by decide, missing_marker_yields_formatError _ (by decide)⟩

/-- C7: a document with the format marker (before the first data row) but
zero parseable variant rows fails with `EmptyResultError`, whose message
differs from the `FormatError` message, and the pipeline never returns an
empty-but-successful result. -/
theorem marker_but_no_rows_yields_emptyResultError (doc : List String)
    (hm : markerBeforeFirstDataRow doc = true)
    (hrows : doc.filterMap parseDataRow = []) :
    (analyzeValidation doc = .error .emptyResultError ∧
      errorMessage .emptyResultError ≠ errorMessage .formatError) ∧
    ∀ d : List String, analyzeValidation d ≠ .ok [] := by
  have hgate : (doc.any fun l => strIncludes l vcfMarker) = true := by
    unfold markerBeforeFirstDataRow at hm
    rw [List.any_eq_true] at hm
    obtain ⟨l, hl, hli⟩ := hm
    exact List.any_eq_true.mpr ⟨l, (List.takeWhile_prefix _).subset hl, hli⟩
  have hp : parseVCF doc = .ok [] := by simp [parseVCF, hm, hrows]
  refine ⟨⟨by simp [analyzeValidation, hgate, hp], by decide⟩, fun d hd => ?_⟩
  by_cases hg : (d.any fun l => strIncludes l vcfMarker) = true
  · cases hpd : parseVCF d with
    | error e => simp [analyzeValidation, hg, hpd] at hd
    | ok variants =>
      by_cases hlen : (variants.length == 0) = true
      · simp [analyzeValidation, hg, hpd, hlen] at hd
      · simp [analyzeValidation, hg, hpd, hlen] at hd
        exact hlen (by simp [hd])
  · rw [Bool.not_eq_true] at hg
    simp [analyzeValidation, hg] at hd

/-- Witness for C7: a two-line document with the marker, a header row and
no data rows. -/
theorem marker_but_no_rows_yields_emptyResultError_witness :
    (analyzeValidation ["##fileformat=VCFv4.2", "#CHROM\tPOS"] = .error .emptyResultError ∧
      errorMessage .emptyResultError ≠ errorMessage .formatError) ∧
    ∀ d : List String, analyzeValidation d ≠ .ok [] :=
  marker_but_no_rows_yields_emptyResultError ["##fileformat=VCFv4.2", "#CHROM\tPOS"]
    (by decide) (by decide)

/-- C8 counterexample: the phenotype label `Indeterminate` (the spec's own
fallback label, §4.3) normalizes to `Unknown`, which is none of the five
canonical codes nor the literal `Normal`. -/
theorem normalizedPhenotype_indeterminate_counterexample :
    normalizedPhenotype "Indeterminate" = "Unknown" ∧
      "Unknown" ∉ (["PM", "IM", "NM", "RM", "URM", "Normal"] : List String) := by
  exact ⟨by decide, by decide⟩

/-- C8 amended: normalization lands in the seven-value set
{PM, IM, NM, RM, URM, Normal, Unknown}; the exact string `Normal Function`
yields `Normal` and is the only input that can yield `Normal` (so it is
never merged into NM), while `Normal Metabolizer` yields `NM`; unmatched
labels yield `Unknown`. -/
theorem normalizedPhenotype_amended (raw : String) :
    normalizedPhenotype raw ∈
        (["PM", "IM", "NM", "RM", "URM", "Normal", "Unknown"] : List String) ∧
    normalizedPhenotype "Normal Function" = "Normal" ∧
    normalizedPhenotype "Normal Metabolizer" = "NM" ∧
    (raw ≠ "Normal Function" → normalizedPhenotype raw ≠ "Normal") := by
  refine ⟨?_, by decide, by decide, fun hne => ?_⟩
  · simp only [normalizedPhenotype]
    split_ifs <;> simp
  · simp only [normalizedPhenotype]
    split_ifs with hx h1 h2 h3 h4 h5 <;>
      first
        | decide
        | exact absurd (by simpa using hx) hne

/-- Witness for C8 amended at the `Indeterminate` fallback label. -/
theorem normalizedPhenotype_amended_witness :
    normalizedPhenotype "Indeterminate" ∈
        (["PM", "IM", "NM", "RM", "URM", "Normal", "Unknown"] : List String) ∧
      normalizedPhenotype "Indeterminate" ≠ "Normal" :=
  ⟨(normalizedPhenotype_amended "Indeterminate").1,
   (normalizedPhenotype_amended "Indeterminate").2.2.2 (by decide)⟩

/-- Unrolling of the sampling loop: with a positive step and window
`48 * step`, the loop started at `k · step` with enough fuel produces one
sample per remaining index `k, k+1, …, 48`. -/
theorem pkLoop_eq (e : ℚ → ℚ) (P : PKParams) (ke km : ℚ) (isPd : Bool)
    (tw step : ℚ) (hstep : 0 < step) (htw : tw = 48 * step) :
    ∀ (fuel k : ℕ), 49 - k ≤ fuel →
      pkLoop e P ke km isPd tw step fuel ((k : ℚ) * step) =
        (List.range (49 - k)).map
          (fun j => pkSample e P ke km isPd (((k + j : ℕ) : ℚ) * step)) := by
  intro fuel
  induction fuel with
  | zero =>
    intro k hk
    have h0 : 49 - k = 0 := Nat.le_zero.mp hk
    rw [h0]
    simp [pkLoop]
  | succ fuel ih =>
    intro k hk
    by_cases hk48 : k ≤ 48
    · have hle : (k : ℚ) * step ≤ tw := by
        rw [htw]
        apply mul_le_mul_of_nonneg_right _ (le_of_lt hstep)
        exact_mod_cast hk48
      have ht : (k : ℚ) * step + step = ((k + 1 : ℕ) : ℚ) * step := by
        push_cast
        ring
      have h49 : 49 - k = (49 - (k + 1)) + 1 := by omega
      have hfun : (fun j : ℕ => pkSample e P ke km isPd (((k + 1 + j : ℕ) : ℚ) * step)) =
          (fun j : ℕ => pkSample e P ke km isPd (((k + j : ℕ) : ℚ) * step)) ∘ Nat.succ := by
        funext j
        simp only [Function.comp_apply]
        congr 1
        push_cast
        ring
      simp only [pkLoop]
      rw [if_pos hle, ht, ih (k + 1) (by omega), h49, List.range_succ_eq_map,
        List.map_cons, List.map_map, hfun]
      norm_num
    · have hgt : ¬((k : ℚ) * step ≤ tw) := by
        rw [htw, not_le]
        apply mul_lt_mul_of_pos_right _ hstep
        exact_mod_cast by omega
      have h0 : 49 - k = 0 := by omega
      simp only [pkLoop]
      rw [if_neg hgt, h0]
      simp

/-- Evaluation of `generatePKData` over a positive window: it is the list of the 49 samples
at `t = j · timeWindow/48`, `j = 0, …, 48`. -/
theorem generatePKData_eq (e : ℚ → ℚ) (drug phen : String) (tw : ℚ) (htw : 0 < tw) :
    generatePKData e drug phen tw =
      (List.range 49).map (fun j : ℕ =>
        pkSample e (pkParamsOf drug) (keOf drug phen)
          (getKeModifier phen (prodrugSet.contains drug)) (prodrugSet.contains drug)
          ((j : ℚ) * (tw / 48))) := by
  have hstep : 0 < tw / 48 := by positivity
  have h48 : tw = 48 * (tw / 48) := by field_simp
  have hmain := pkLoop_eq e ((drugPKParams drug).getD defaultPKParams)
    ((pkParamsOf drug).ke_normal * getKeModifier phen (prodrugSet.contains drug))
    (getKeModifier phen (prodrugSet.contains drug)) (prodrugSet.contains drug)
    tw (tw / 48) hstep h48 64 0 (by omega)
  simp only [Nat.cast_zero, zero_mul, Nat.sub_zero, Nat.zero_add] at hmain
  simp only [generatePKData, pkParamsOf, keOf]
  simp only [pkParamsOf] at hmain
  exact hmain

/-- Every phenotype modifier of `getKeModifier` is positive. -/
theorem getKeModifier_pos (phenotype : String) (b : Bool) :
    0 < getKeModifier phenotype b := by
  unfold getKeModifier
  cases b <;> norm_num <;> split_ifs <;> norm_num

/-- Every base elimination rate in the PK table (and the default) is
positive. -/
theorem ke_normal_pos (drug : String) : 0 < (pkParamsOf drug).ke_normal := by
  unfold pkParamsOf drugPKParams
  split <;> norm_num [defaultPKParams]

/-- The phenotype-adjusted rate is positive. -/
theorem keOf_pos (drug phenotype : String) : 0 < keOf drug phenotype :=
  mul_pos (ke_normal_pos drug) (getKeModifier_pos phenotype _)

/-- Every window produced by `getTimeWindow` is positive. -/
theorem getTimeWindow_pos (drug : String) : 0 < getTimeWindow drug := by
  simp only [getTimeWindow]
  split_ifs <;> norm_num

/-- Two-decimal rounding is the identity on the sampling grid of the four
fixed windows (all grid times are multiples of a quarter hour). -/
theorem round2_grid (j : ℕ) (tw : ℚ) (h : tw ∈ ([12, 24, 72, 120] : List ℚ)) :
    round2 ((j : ℚ) * (tw / 48)) = (j : ℚ) * (tw / 48) := by
  fin_cases h <;> unfold round2
  · rw [show ((j : ℚ) * ((12 : ℚ) / 48)) * 100 = ((25 * j : ℕ) : ℚ) by push_cast; ring,
      round_natCast]
    push_cast
    ring
  · rw [show ((j : ℚ) * ((24 : ℚ) / 48)) * 100 = ((50 * j : ℕ) : ℚ) by push_cast; ring,
      round_natCast]
    push_cast
    ring
  · rw [show ((j : ℚ) * ((72 : ℚ) / 48)) * 100 = ((150 * j : ℕ) : ℚ) by push_cast; ring,
      round_natCast]
    push_cast
    ring
  · rw [show ((j : ℚ) * ((120 : ℚ) / 48)) * 100 = ((250 * j : ℕ) : ℚ) by push_cast; ring,
      round_natCast]
    push_cast
    ring

/-- C6 counterexample: for WARFARIN (literature half-life 36 h) five
half-lives are 180 h but the window is 120 h — the snap is a cap, not an
upward rounding — and the window holds 49 samples, not 48. -/
theorem timeWindow_not_upward_counterexample :
    getTimeWindow "WARFARIN" = 120 ∧ halfLifeOf "WARFARIN" * 5 = 180 ∧
      ¬(halfLifeOf "WARFARIN" * 5 ≤ getTimeWindow "WARFARIN") ∧
      (generatePKData (fun _ => 1) "WARFARIN" "Normal Metabolizer"
          (getTimeWindow "WARFARIN")).length ≠ 48 := by
  have h36 : halfLifeOf "WARFARIN" = 36 := rfl
  have h120 : getTimeWindow "WARFARIN" = 120 := by
    norm_num [getTimeWindow, h36]
  refine ⟨h120, by rw [h36]; norm_num, by rw [h36, h120]; norm_num, ?_⟩
  rw [h120, generatePKData_eq _ _ _ _ (by norm_num), List.length_map, List.length_range]
  norm_num

/-- C6 amended: the window is one of the fixed sizes 12h, 24h, 72h, 120h;
below 72h of five half-lives it is five half-lives snapped upward, while at
or above 72h it is capped at 120h (possibly below five half-lives); and the
window is subdivided into 48 evenly spaced steps, i.e. 49 samples at
`t = k · window/48`, `k = 0, …, 48`. -/
theorem timeWindow_snap_amended (drug : String) :
    getTimeWindow drug ∈ ([12, 24, 72, 120] : List ℚ) ∧
    (halfLifeOf drug * 5 < 72 → halfLifeOf drug * 5 ≤ getTimeWindow drug) ∧
    (72 ≤ halfLifeOf drug * 5 → getTimeWindow drug = 120) ∧
    ∀ (e : ℚ → ℚ) (phen : String),
      (generatePKData e drug phen (getTimeWindow drug)).length = 49 ∧
      (generatePKData e drug phen (getTimeWindow drug)).map PKPoint.time =
        (List.range 49).map (fun k : ℕ => (k : ℚ) * (getTimeWindow drug / 48)) := by
  have hmem : getTimeWindow drug ∈ ([12, 24, 72, 120] : List ℚ) := by
    simp only [getTimeWindow]
    split_ifs <;> simp
  refine ⟨hmem, fun h => ?_, fun h => ?_, fun e phen => ⟨?_, ?_⟩⟩
  · simp only [getTimeWindow]
    split_ifs with a b <;> linarith
  · simp only [getTimeWindow]
    split_ifs with a b <;> linarith
  · rw [generatePKData_eq _ _ _ _ (getTimeWindow_pos drug), List.length_map,
      List.length_range]
  · rw [generatePKData_eq _ _ _ _ (getTimeWindow_pos drug), List.map_map]
    refine List.map_congr_left fun j hj => ?_
    simp only [Function.comp_apply, pkSample]
    exact round2_grid j _ hmem

/-- Witness for C6 amended: WARFARIN exercises the 120h cap branch,
CODEINE the upward-snap branch, and the WARFARIN window holds 49 samples. -/
theorem timeWindow_snap_amended_witness :
    getTimeWindow "WARFARIN" = 120 ∧
      halfLifeOf "CODEINE" * 5 ≤ getTimeWindow "CODEINE" ∧
      (generatePKData (fun _ => 1) "WARFARIN" "Normal Metabolizer"
          (getTimeWindow "WARFARIN")).length = 49 :=
  ⟨(timeWindow_snap_amended "WARFARIN").2.2.1 (by norm_num [halfLifeOf, drugPKParams]),
   (timeWindow_snap_amended "CODEINE").2.1 (by norm_num [halfLifeOf, drugPKParams]),
   ((timeWindow_snap_amended "WARFARIN").2.2.2 (fun _ => 1) "Normal Metabolizer").1⟩

/-- C9: a metabolite series is present in the output points iff the drug is
a prodrug; for non-prodrugs the field is omitted (`none`), never zeros; and
for prodrugs each sample's metabolite is
`concentration(t) · (1 − e^(−kmet·t)) · modifier · weight` with
`kmet = 0.4 · ke` and `weight = 0.3` (rounded to the four emitted decimal
places). -/
theorem metabolite_iff_prodrug (e : ℚ → ℚ)
    (he : ∀ x : ℚ, x ≤ 0 → 0 ≤ e x ∧ e x ≤ 1)
    (drug phen : String) (tw : ℚ) (htw : 0 < tw)
    (pt : PKPoint) (hpt : pt ∈ generatePKData e drug phen tw) :
    (pt.metabolite.isSome = true ↔ prodrugSet.contains drug = true) ∧
    (prodrugSet.contains drug = false → pt.metabolite = none) ∧
    (prodrugSet.contains drug = true →
      ∃ t : ℚ, 0 ≤ t ∧
        pt.metabolite = some (round4
          (concentrationAt e (pkParamsOf drug) (keOf drug phen) t *
            (1 - e (-(keOf drug phen * 0.4) * t)) *
            getKeModifier phen true * 0.3))) := by
  rw [generatePKData_eq e drug phen tw htw] at hpt
  obtain ⟨j, hj, rfl⟩ := List.mem_map.mp hpt
  have ht0 : (0 : ℚ) ≤ (j : ℚ) * (tw / 48) :=
    mul_nonneg (Nat.cast_nonneg j) (div_nonneg htw.le (by norm_num))
  cases hpd : prodrugSet.contains drug
  · exact ⟨by simp [pkSample], fun _ => by simp [pkSample], fun h => absurd h (by simp)⟩
  · refine ⟨by simp [pkSample], fun h => absurd h (by simp), fun _ => ?_⟩
    refine ⟨(j : ℚ) * (tw / 48), ht0, ?_⟩
    simp only [pkSample, if_pos]
    congr 1
    unfold metaboliteAt
    rw [max_eq_right]
    apply mul_nonneg (mul_nonneg (mul_nonneg ?_ ?_) ?_) (by norm_num)
    · exact le_max_left 0 _
    · rw [sub_nonneg]
      refine (he _ ?_).2
      rw [neg_mul, neg_nonpos]
      exact mul_nonneg (mul_nonneg (keOf_pos drug phen).le (by norm_num)) ht0
    · exact (getKeModifier_pos phen true).le

/-- Witness for C9 at the first sample of the CODEINE (prodrug) simulation
for a poor metabolizer over a 24 h window, with a constant stub for the
abstract exponential. -/
theorem metabolite_iff_prodrug_witness :
    ((pkSample (fun _ => (1 : ℚ)) (pkParamsOf "CODEINE") (keOf "CODEINE" "Poor Metabolizer")
          (getKeModifier "Poor Metabolizer" (prodrugSet.contains "CODEINE"))
          (prodrugSet.contains "CODEINE")
          (((0 : ℕ) : ℚ) * (24 / 48))).metabolite.isSome = true ↔
        prodrugSet.contains "CODEINE" = true) ∧
    (prodrugSet.contains "CODEINE" = false →
      (pkSample (fun _ => (1 : ℚ)) (pkParamsOf "CODEINE") (keOf "CODEINE" "Poor Metabolizer")
          (getKeModifier "Poor Metabolizer" (prodrugSet.contains "CODEINE"))
          (prodrugSet.contains "CODEINE")
          (((0 : ℕ) : ℚ) * (24 / 48))).metabolite = none) ∧
    (prodrugSet.contains "CODEINE" = true →
      ∃ t : ℚ, 0 ≤ t ∧
        (pkSample (fun _ => (1 : ℚ)) (pkParamsOf "CODEINE") (keOf "CODEINE" "Poor Metabolizer")
            (getKeModifier "Poor Metabolizer" (prodrugSet.contains "CODEINE"))
            (prodrugSet.contains "CODEINE")
            (((0 : ℕ) : ℚ) * (24 / 48))).metabolite = some (round4
          (concentrationAt (fun _ => (1 : ℚ)) (pkParamsOf "CODEINE")
              (keOf "CODEINE" "Poor Metabolizer") t *
            (1 - (fun _ => (1 : ℚ)) (-(keOf "CODEINE" "Poor Metabolizer" * 0.4) * t)) *
            getKeModifier "Poor Metabolizer" true * 0.3))) :=
  metabolite_iff_prodrug (fun _ => (1 : ℚ)) (fun x hx => ⟨by norm_num, by norm_num⟩)
    "CODEINE" "Poor Metabolizer" 24 (by norm_num) _
    (by
      rw [generatePKData_eq (fun _ => (1 : ℚ)) "CODEINE" "Poor Metabolizer" 24 (by norm_num)]
      exact List.mem_map.mpr ⟨0, List.mem_range.mpr (by norm_num), rfl⟩)

/-- A prefix test against `p ++ q` entails the prefix test against `p`. -/
theorem listPrefixEq_append (p q l : List Char)
    (h : listPrefixEq (p ++ q) l = true) : listPrefixEq p l = true := by
  induction p generalizing l with
  | nil => rfl
  | cons a as ih =>
    cases l with
    | nil => simp [listPrefixEq] at h
    | cons b bs =>
      simp only [List.cons_append, listPrefixEq, Bool.and_eq_true] at h ⊢
      exact ⟨h.1, ih bs h.2⟩

/-- Containment of `p ++ q` entails containment of `p`. -/
theorem listContainsSub_append (p q l : List Char)
    (h : listContainsSub (p ++ q) l = true) : listContainsSub p l = true := by
  induction l with
  | nil =>
    simp only [listContainsSub, List.isEmpty_eq_true, List.append_eq_nil] at h ⊢
    exact h.1
  | cons c rest ih =>
    simp only [listContainsSub, Bool.or_eq_true] at h ⊢
    rcases h with h | h
    · exact Or.inl (listPrefixEq_append p q _ h)
    · exact Or.inr (ih h)

/-- C10: a phenotype matching none of the recognized substrings (`poor`,
`no function`, `intermediate`, `decreased`, `ultra`, `rapid`,
case-insensitively) gets a rate modifier of exactly 1.0 for both drug
classes, and its concentration series coincides with a normal
metabolizer's for the same drug and window. -/
theorem unrecognized_phenotype_modifier_one (phen : String)
    (h1 : strIncludes (strToLower phen) "poor" = false)
    (h2 : strIncludes (strToLower phen) "no function" = false)
    (h3 : strIncludes (strToLower phen) "intermediate" = false)
    (h4 : strIncludes (strToLower phen) "decreased" = false)
    (h5 : strIncludes (strToLower phen) "ultra" = false)
    (h6 : strIncludes (strToLower phen) "rapid" = false) :
    (∀ b : Bool, getKeModifier phen b = 1.0) ∧
    ∀ (e : ℚ → ℚ) (drug : String) (tw : ℚ),
      generatePKData e drug phen tw = generatePKData e drug "Normal Metabolizer" tw := by
  have hur : strIncludes (strToLower phen) "ultrarapid" = false := by
    cases hc : strIncludes (strToLower phen) "ultrarapid"
    · rfl
    · exfalso
      have happ : ("ultra".data ++ "rapid".data) = "ultrarapid".data := by decide
      have hu : strIncludes (strToLower phen) "ultra" = true := by
        unfold strIncludes at hc ⊢
        rw [← happ] at hc
        exact listContainsSub_append _ _ _ hc
      simp [hu] at h5
  have hmod : ∀ b : Bool, getKeModifier phen b = 1.0 := by
    intro b
    unfold getKeModifier
    cases b <;> simp [h1, h2, h3, h4, h5, h6, hur]
  have hmodNM : ∀ b : Bool, getKeModifier "Normal Metabolizer" b = 1.0 := by
    have e1 : strIncludes (strToLower "Normal Metabolizer") "poor" = false := by decide
    have e2 : strIncludes (strToLower "Normal Metabolizer") "no function" = false := by decide
    have e3 : strIncludes (strToLower "Normal Metabolizer") "intermediate" = false := by decide
    have e4 : strIncludes (strToLower "Normal Metabolizer") "decreased" = false := by decide
    have e5 : strIncludes (strToLower "Normal Metabolizer") "ultrarapid" = false := by decide
    have e6 : strIncludes (strToLower "Normal Metabolizer") "ultra" = false := by decide
    have e7 : strIncludes (strToLower "Normal Metabolizer") "rapid" = false := by decide
    intro b
    unfold getKeModifier
    cases b <;> simp [e1, e2, e3, e4, e5, e6, e7]
  refine ⟨hmod, fun e drug tw => ?_⟩
  simp only [generatePKData, hmod, hmodNM]

/-- Witness for C10 at the `Indeterminate` fallback phenotype. -/
theorem unrecognized_phenotype_modifier_one_witness :
    (∀ b : Bool, getKeModifier "Indeterminate" b = 1.0) ∧
    ∀ (e : ℚ → ℚ) (drug : String) (tw : ℚ),
      generatePKData e drug "Indeterminate" tw =
        generatePKData e drug "Normal Metabolizer" tw :=
  unrecognized_phenotype_modifier_one "Indeterminate" (by decide) (by decide) (by decide)
    (by decide) (by decide) (by decide)
